import Mathlib

/-!
Shallow embedding of the KPI derivations of the director_dashboard_app
repository, covering the two source files:

* `src/operation_manager.py` — the `OperationsDashboard` class with the
  pandas-based derivations `calculate_otp`, `calculate_trip_completion`,
  `calculate_mtbf`, `calculate_fleet_downtime`, `calculate_staff_readiness`
  and `calculate_operational_vehicles`.
* `src/director_dashboard_app/director_dashboard_app.py` — the
  `DirectorDashboard` class whose KPIs are SQL queries (`get_rofa`,
  `get_customer_retention`, `get_booking_sources`).

DataFrames are embedded as structures holding a list of typed rows together
with a boolean per column whose presence the source explicitly tests with
`'col' in df.columns` (in pandas a column exists for the whole frame, not per
row).  Numeric results are rationals; Python float / SQL numeric division is
exact division on ℚ, with SQL `ROUND(x, 2)` modelled explicitly.
-/

namespace OperationManager

/-- Rows of the `bookings` frame; only `id` and the `booking_status` column
are consumed by `calculate_trip_completion`. -/
structure BookingRow where
  id : Nat
  booking_status : String
deriving DecidableEq, Repr

/-- The `bookings` DataFrame: the code tests `'booking_status' in
bookings.columns`, modelled by the `hasBookingStatus` flag. -/
structure BookingsFrame where
  hasBookingStatus : Bool
  rows : List BookingRow
deriving DecidableEq, Repr

/-- Rows of the `attendances` frame. -/
structure AttendanceRow where
  id : Nat
  user_id : Nat
  date : Int
  presence_type : String
deriving DecidableEq, Repr

/-- The `attendances` DataFrame with its `presence_type` column flag. -/
structure AttendanceFrame where
  hasPresenceType : Bool
  rows : List AttendanceRow
deriving DecidableEq, Repr

/-- Rows of the `vehicles` frame (operation_manager side). -/
structure VehicleRow where
  id : Nat
  status : Bool
deriving DecidableEq, Repr

/-- The `vehicles` DataFrame with its `status` column flag, tested by
`calculate_operational_vehicles`. -/
structure VehiclesFrame where
  hasStatus : Bool
  rows : List VehicleRow
deriving DecidableEq, Repr

/-- Rows of the `corrective_maintenances` frame; `date` is a timestamp in
seconds, `duration` is in hours. -/
structure MaintRow where
  id : Nat
  vehicle_id : Nat
  date : Int
  duration : ℚ
deriving DecidableEq, Repr

/-- The `corrective_maintenances` DataFrame; the code tests the `date`
column (`calculate_mtbf`) and the `duration` column
(`calculate_fleet_downtime`). -/
structure MaintFrame where
  hasDate : Bool
  hasDuration : Bool
  rows : List MaintRow
deriving DecidableEq, Repr

/-- Embedding of `calculate_trip_completion` from `operation_manager.py` (lines 192-214):
empty frame gives `(0, 0)`; otherwise the counts of rows whose
`booking_status` equals `'completed'` / `'cancelled'` (0 when the column is
absent), each divided by the total row count and scaled by 100. -/
def calculate_trip_completion (b : BookingsFrame) : ℚ × ℚ :=
  if b.rows = [] then (0, 0)
  else
    let total_trips := b.rows.length
    let completed : Nat :=
      if b.hasBookingStatus then
        b.rows.countP (fun r => decide (r.booking_status = "completed"))
      else 0
    let cancelled : Nat :=
      if b.hasBookingStatus then
        b.rows.countP (fun r => decide (r.booking_status = "cancelled"))
      else 0
    ((if 0 < total_trips then ((completed : ℚ) / (total_trips : ℚ)) * 100 else 0),
     (if 0 < total_trips then ((cancelled : ℚ) / (total_trips : ℚ)) * 100 else 0))

/-- Embedding of `calculate_staff_readiness` from `operation_manager.py` (lines 267-286):
empty frame gives 0; otherwise the count of rows with `presence_type =
'present'` (0 when the column is absent) over the total row count, times
100. -/
def calculate_staff_readiness (a : AttendanceFrame) : ℚ :=
  if a.rows = [] then 0
  else
    let present_count : Nat :=
      if a.hasPresenceType then
        a.rows.countP (fun r => decide (r.presence_type = "present"))
      else 0
    let total_count := a.rows.length
    if 0 < total_count then ((present_count : ℚ) / (total_count : ℚ)) * 100 else 0

/-- Embedding of `calculate_operational_vehicles` from `operation_manager.py` (lines
288-300): empty frame gives 0; sum of the boolean `status` column when
present, else the total row count. -/
def calculate_operational_vehicles (v : VehiclesFrame) : Nat :=
  if v.rows = [] then 0
  else if v.hasStatus then v.rows.countP (fun r => r.status)
  else v.rows.length

/-- Date order on maintenance rows (`sort_values('date')`). -/
def dateLe (a b : MaintRow) : Prop := a.date ≤ b.date

instance : DecidableRel dateLe := fun a b => inferInstanceAs (Decidable (a.date ≤ b.date))

instance : IsTotal MaintRow dateLe := ⟨fun a b => le_total a.date b.date⟩

instance : IsTrans MaintRow dateLe := ⟨fun _ _ _ h h₂ => le_trans h h₂⟩

/-- Consecutive date differences of a row list, converted from seconds to
hours (`maint['date'].diff().dt.total_seconds() / 3600`, with the leading
NaN dropped, as `.mean()` skips it). -/
def deltasHours : List MaintRow → List ℚ
  | a :: b :: rest => ((b.date - a.date : ℤ) : ℚ) / 3600 :: deltasHours (b :: rest)
  | _ => []

/-- Embedding of `calculate_mtbf` from `operation_manager.py` (lines 216-239): 0 for an
empty frame, fewer than 2 rows, or an absent `date` column; otherwise the
rows are sorted by date ascending and the result is the mean of the
consecutive deltas in hours (pandas `.diff().mean()` divides by the number
of non-NaN differences, i.e. row count minus one). -/
def calculate_mtbf (m : MaintFrame) : ℚ :=
  if m.rows = [] then 0
  else if m.rows.length < 2 then 0
  else if m.hasDate = false then 0
  else
    let sorted := List.insertionSort dateLe m.rows
    let time_diffs := deltasHours sorted
    if 1 < m.rows.length then time_diffs.sum / (time_diffs.length : ℚ) else 0

/-- Embedding of `calculate_fleet_downtime` from `operation_manager.py` (lines 241-265):
0 when either frame is empty; otherwise the summed `duration` hours (0 when
the column is absent) against a fixed baseline of `vehicle count × 24 × 30`
hours, times 100. -/
def calculate_fleet_downtime (v : VehiclesFrame) (m : MaintFrame) : ℚ :=
  if v.rows = [] ∨ m.rows = [] then 0
  else
    let total_fleet_hours : ℚ := (v.rows.length : ℚ) * 24 * 30
    let downtime_hours : ℚ :=
      if m.hasDuration then (m.rows.map (fun r => r.duration)).sum else 0
    if 0 < total_fleet_hours then (downtime_hours / total_fleet_hours) * 100 else 0

/-- Rows of the `trip_timings` frame; `start`, `end` (here `end_`, since
`end` is a Lean keyword) and `trip_time` are timestamps in seconds. -/
structure TripTimingRow where
  trip_id : String
  start : Int
  end_ : Int
  trip_time : Int
deriving DecidableEq, Repr

/-- Rows of the `trip_durations` frame; durations are in minutes. -/
structure TripDurationRow where
  trip_id : String
  expected_duration : Int
  real_duration : Int
  status : String
deriving DecidableEq, Repr

/-- Column names of the `trip_timings` frame (sample-data generator lines
47-52 and the spec's TripTiming entity). -/
def tripTimingsCols : List String := ["trip_id", "start", "end", "trip_time"]

/-- Column names of the `trip_durations` frame (sample-data generator lines
55-60 and the spec's TripDuration entity). -/
def tripDurationsCols : List String := ["trip_id", "expected_duration", "real_duration", "status"]

/-- Column names produced by `pd.merge(left, right, on=key, suffixes=(ls, rs))`:
a suffix is attached only to a non-key column that occurs in BOTH frames. -/
def mergeSuffix (key ls rs : String) (lcols rcols : List String) : List String :=
  lcols.map (fun c => if c ≠ key ∧ c ∈ rcols then c ++ ls else c) ++
    (rcols.filter (fun c => decide (c ≠ key))).map
      (fun c => if c ∈ lcols then c ++ rs else c)

/-- Columns of the merged frame built in `calculate_otp` (line 172).  The
only shared column is the key `trip_id`, so no suffix is attached anywhere
and in particular no column is named `trip_time_timing`. -/
def mergedCols : List String :=
  mergeSuffix "trip_id" "_timing" "_duration" tripTimingsCols tripDurationsCols

/-- Row part of the pandas left merge on `trip_id`: each timing row is
paired with every matching duration row, or with `none` when no duration
row matches. -/
def leftMergeRows : List TripTimingRow → List TripDurationRow →
    List (TripTimingRow × Option TripDurationRow)
  | [], _ => []
  | t :: ts, ds =>
    (match ds.filter (fun d => decide (d.trip_id = t.trip_id)) with
     | [] => [(t, none)]
     | m :: ms => (m :: ms).map (fun d => (t, some d))) ++ leftMergeRows ts ds

/-- Reading column `name` of a frame whose columns are `cols`: the typed
value when the column exists, a `KeyError` carrying the name otherwise. -/
def colRead (cols : List String) (name : String) (v : α) : Except String α :=
  if name ∈ cols then .ok v else .error name

/-- Sequencing of per-row column reads (`Except`-valued `List.map`). -/
def mapExcept (f : α → Except ε β) : List α → Except ε (List β)
  | [] => .ok []
  | a :: as => do
    let b ← f a
    let bs ← mapExcept f as
    pure (b :: bs)

/-- Body of the `try:` block of `calculate_otp` (lines 170-187).  The
departure branch is guarded by `'start' in merged.columns and
'trip_time_timing' in merged.columns` (line 175) and its `else` yields 0;
the arrival branch is guarded by `'end'` and `'expected_duration'` (line
181) and its formula reads `merged['trip_time_timing']` (line 182), which
raises a `KeyError` that the surrounding `except` maps to `(0, 0)`.  A
left-join row without a matching duration has NaN `expected_duration`, and
a comparison against NaN is false. -/
def otpBody (timings : List TripTimingRow) (durations : List TripDurationRow) :
    Except String (ℚ × ℚ) := do
  let merged := leftMergeRows timings durations
  let departure_otp ←
    if "start" ∈ mergedCols ∧ "trip_time_timing" ∈ mergedCols then do
      let flags ← mapExcept (fun r => do
        let s ← colRead mergedCols "start" r.1.start
        let tt ← colRead mergedCols "trip_time_timing" r.1.trip_time
        pure (decide (s ≤ tt + 5 * 60))) merged
      pure (((flags.countP id : Nat) : ℚ) / (merged.length : ℚ) * 100)
    else pure (0 : ℚ)
  let arrival_otp ←
    if "end" ∈ mergedCols ∧ "expected_duration" ∈ mergedCols then do
      let flags ← mapExcept (fun r => do
        let e ← colRead mergedCols "end" r.1.end_
        let tt ← colRead mergedCols "trip_time_timing" r.1.trip_time
        let ed ← colRead mergedCols "expected_duration" (r.2.map (fun d => d.expected_duration))
        pure (match ed with
          | none => false
          | some m => decide (e ≤ tt + m * 60 + 10 * 60))) merged
      pure (((flags.countP id : Nat) : ℚ) / (merged.length : ℚ) * 100)
    else pure (0 : ℚ)
  pure (departure_otp, arrival_otp)

/-- Embedding of `calculate_otp` from `operation_manager.py` (lines 165-190): `(0, 0)` when
either frame is empty, otherwise the `try:` body with exceptions mapped to
`(0, 0)`. -/
def calculate_otp (timings : List TripTimingRow) (durations : List TripDurationRow) : ℚ × ℚ :=
  if timings = [] ∨ durations = [] then (0, 0)
  else
    match otpBody timings durations with
    | .ok p => p
    | .error _ => (0, 0)

/-- The joined rows `calculate_otp` actually builds: none when either input
collection is empty (the guard at line 167 returns before any merge),
otherwise the left merge anchored on the timings. -/
def otpJoinedRows (timings : List TripTimingRow) (durations : List TripDurationRow) :
    List (TripTimingRow × Option TripDurationRow) :=
  if timings = [] ∨ durations = [] then [] else leftMergeRows timings durations

/-- Modelled from the spec: the intended departure-punctuality predicate,
`actual_start ≤ scheduled_time + 5-minute grace` (spec §4.2). -/
def specDepartedOnTime (r : TripTimingRow × Option TripDurationRow) : Bool :=
  decide (r.1.start ≤ r.1.trip_time + 5 * 60)

/-- Modelled from the spec: the intended arrival-punctuality predicate,
`actual_end ≤ scheduled_time + expected_duration + 10-minute grace`
(spec §4.2); false when no duration row is joined. -/
def specArrivedOnTime (r : TripTimingRow × Option TripDurationRow) : Bool :=
  match r.2 with
  | none => false
  | some d => decide (r.1.end_ ≤ r.1.trip_time + d.expected_duration * 60 + 10 * 60)

/-- Modelled from the spec: the intended OTP pair — each rate is the count
of joined rows satisfying its punctuality condition over the total joined
row count, times 100 (spec §4.2). -/
def specOtp (timings : List TripTimingRow) (durations : List TripDurationRow) : ℚ × ℚ :=
  let merged := leftMergeRows timings durations
  if merged = [] then (0, 0)
  else
    (((merged.countP specDepartedOnTime : Nat) : ℚ) / (merged.length : ℚ) * 100,
     ((merged.countP specArrivedOnTime : Nat) : ℚ) / (merged.length : ℚ) * 100)

/-- The three-event maintenance history of the spec's MTBF test case:
events at hours 0, 10 and 30, i.e. at 0, 36000 and 108000 seconds. -/
def mtbfExample : List MaintRow := [⟨1, 1, 0, 2⟩, ⟨2, 1, 36000, 3⟩, ⟨3, 1, 108000, 4⟩]

/-- The ten-vehicle fleet of the spec's downtime test case. -/
def tenVehicles : List VehicleRow := (List.range 10).map (fun i => ⟨i + 1, true⟩)

end OperationManager

namespace DirectorDashboard

/-- PostgreSQL `ROUND(x::numeric, n)` rounds half away from zero; this is
rounding to an integer, half away from zero. -/
def roundAway (x : ℚ) : ℤ :=
  if 0 ≤ x then ⌊x + 1 / 2⌋ else -⌊-x + 1 / 2⌋

/-- Rounding to two decimals, `ROUND(x::numeric, 2)`. -/
def round2 (x : ℚ) : ℚ := ((roundAway (x * 100) : ℤ) : ℚ) / 100

/-- Rows of the `transactions` table used by `get_rofa`; `date` is a day
number, so the recency filter `date >= CURRENT_DATE - INTERVAL ...` becomes
`cutoff ≤ date`. -/
structure TransactionRow where
  type : String
  debit : ℚ
  date : Int
deriving DecidableEq, Repr

/-- Rows of the `vehicles` table on the director side. -/
structure DVehicleRow where
  id : Nat
  status : Bool
deriving DecidableEq, Repr

/-- Embedding of `FROM transactions t CROSS JOIN vehicles v`: every transaction paired
with every vehicle. -/
def crossRows : List TransactionRow → List DVehicleRow →
    List (TransactionRow × DVehicleRow)
  | [], _ => []
  | t :: ts, vs => vs.map (fun v => (t, v)) ++ crossRows ts vs

/-- Embedding of `get_rofa` from `director_dashboard_app.py` (lines 125-140): over the
CROSS JOIN of `transactions` and `vehicles` filtered to revenue rows in the
window and operational vehicles, it returns
`(rofa, SUM(t.debit), COUNT(DISTINCT v.id))` with
`rofa = ROUND(SUM(t.debit) / COUNT(DISTINCT v.id), 2)` and 0 when the
distinct vehicle count is 0. -/
def get_rofa (cutoff : Int) (ts : List TransactionRow) (vs : List DVehicleRow) :
    ℚ × ℚ × Nat :=
  let rows := (crossRows ts vs).filter
    (fun r => decide (r.1.type = "revenue") && decide (cutoff ≤ r.1.date) && r.2.status)
  let total_revenue : ℚ := (rows.map (fun r => r.1.debit)).sum
  let total_fleet : Nat := ((rows.map (fun r => r.2.id)).dedup).length
  let rofa : ℚ :=
    if 0 < total_fleet then round2 (total_revenue / (total_fleet : ℚ)) else 0
  (rofa, total_revenue, total_fleet)

/-- Modelled from the spec: ROFA as the spec states it — the sum of revenue
transactions in the window divided by the count of distinct operational
vehicles, 0 when that count is 0 (spec §4.1, §8). -/
def specRofa (cutoff : Int) (ts : List TransactionRow) (vs : List DVehicleRow) : ℚ :=
  let revenue : ℚ := ((ts.filter
    (fun t => decide (t.type = "revenue") && decide (cutoff ≤ t.date))).map
      (fun t => t.debit)).sum
  let fleet : Nat := ((vs.filter (fun v => v.status)).map (fun v => v.id)).dedup.length
  if 0 < fleet then revenue / (fleet : ℚ) else 0

/-- Rows of the `bookings` table on the director side, as consumed by
`get_customer_retention` and `get_booking_sources`. -/
structure DBookingRow where
  passenger_id : Int
  created_at : Int
  total_price : ℚ
  booking_channel : Option String
deriving DecidableEq, Repr

/-- The recency filter `created_at >= CURRENT_DATE - INTERVAL ...`. -/
def windowed (cutoff : Int) (bs : List DBookingRow) : List DBookingRow :=
  bs.filter (fun b => decide (cutoff ≤ b.created_at))

/-- Embedding of `get_customer_retention` from `director_dashboard_app.py` (lines 178-198):
group windowed bookings by `passenger_id`; the result row is
`(total_customers, returning_customers, retention_rate)` where a returning
customer has more than one booking and the rate is
`ROUND(returning * 100.0 / total, 2)`, 0 when there are no customers. -/
def get_customer_retention (cutoff : Int) (bs : List DBookingRow) : Nat × Nat × ℚ :=
  let w := windowed cutoff bs
  let customers := (w.map (fun b => b.passenger_id)).dedup
  let returning := customers.filter
    (fun p => decide (1 < w.countP (fun b => decide (b.passenger_id = p))))
  let total_customers := customers.length
  let returning_customers := returning.length
  (total_customers, returning_customers,
    if 0 < total_customers then
      round2 (((returning_customers : ℚ) * 100) / (total_customers : ℚ))
    else 0)

/-- Does `pat` occur at the start of `l`? -/
def initSeg : List Char → List Char → Bool
  | [], _ => true
  | _ :: _, [] => false
  | a :: as, b :: bs => a = b && initSeg as bs

/-- Does `pat` occur somewhere inside `l`? -/
def subOccurs (pat : List Char) : List Char → Bool
  | [] => initSeg pat []
  | c :: rest => initSeg pat (c :: rest) || subOccurs pat rest

/-- SQL `s LIKE '%pat%'` for a non-null `s`: case-SENSITIVE substring
containment (PostgreSQL `LIKE`; `ILIKE` would be the case-insensitive
variant). -/
def strContains (s pat : String) : Bool := subOccurs pat.toList s.toList

/-- Modelled from the spec: case-insensitive substring matching, the
matching rule the spec ascribes to the channel breakdown (spec §4.3). -/
def specMatchesCI (s pat : String) : Bool :=
  subOccurs (pat.toList.map Char.toLower) (s.toList.map Char.toLower)

/-- The Web bucket predicate of `get_booking_sources` (line 215):
`booking_channel LIKE '%web%' OR booking_channel LIKE '%online%' OR
booking_channel IS NULL`; a `LIKE` on NULL is NULL, hence not satisfied. -/
def inWeb : Option String → Bool
  | none => true
  | some s => strContains s "web" || strContains s "online"

/-- The POS bucket predicate (line 223). -/
def inPOS : Option String → Bool
  | none => false
  | some s => strContains s "pos" || strContains s "counter"

/-- The Mobile bucket predicate (line 231). -/
def inMobile : Option String → Bool
  | none => false
  | some s => strContains s "mobile" || strContains s "app"

/-- The B2B bucket predicate (line 239). -/
def inB2B : Option String → Bool
  | none => false
  | some s => strContains s "b2b" || strContains s "corporate"

/-- One row of the `get_booking_sources` result. -/
structure SourceRow where
  source_type : String
  booking_count : Nat
  total_revenue : ℚ
deriving DecidableEq, Repr

/-- One `SELECT ... WHERE` arm of the UNION: count and summed
`total_price` of the windowed bookings satisfying the bucket predicate. -/
def bucketRow (name : String) (p : Option String → Bool) (cutoff : Int)
    (bs : List DBookingRow) : SourceRow :=
  let sel := (windowed cutoff bs).filter (fun b => p b.booking_channel)
  ⟨name, sel.length, (sel.map (fun b => b.total_price)).sum⟩

/-- Revenue-descending order of the final `ORDER BY total_revenue DESC`. -/
def revenueGe (a b : SourceRow) : Prop := b.total_revenue ≤ a.total_revenue

instance : DecidableRel revenueGe :=
  fun a b => inferInstanceAs (Decidable (b.total_revenue ≤ a.total_revenue))

/-- Embedding of `get_booking_sources` from `director_dashboard_app.py` (lines 200-242):
the five UNION ALL arms — All Channels, Web, POS, Mobile, B2B — sorted by
total revenue descending. -/
def get_booking_sources (cutoff : Int) (bs : List DBookingRow) : List SourceRow :=
  List.insertionSort revenueGe
    [bucketRow "All Channels" (fun _ => true) cutoff bs,
     bucketRow "Web" inWeb cutoff bs,
     bucketRow "POS" inPOS cutoff bs,
     bucketRow "Mobile" inMobile cutoff bs,
     bucketRow "B2B" inB2B cutoff bs]

/-- The ROFA test input of the spec: one revenue transaction of 10000 and
four operational vehicles. -/
def rofaTransactions : List TransactionRow := [⟨"revenue", 10000, 0⟩]

/-- Four distinct operational vehicles. -/
def rofaVehicles : List DVehicleRow := [⟨1, true⟩, ⟨2, true⟩, ⟨3, true⟩, ⟨4, true⟩]

/-- The retention test input of the spec: ten distinct customers, of whom
customers 1-4 have two bookings each and customers 5-10 one each. -/
def retentionExample : List DBookingRow :=
  [⟨1, 5, 10, none⟩, ⟨1, 5, 10, none⟩, ⟨2, 5, 10, none⟩, ⟨2, 5, 10, none⟩,
   ⟨3, 5, 10, none⟩, ⟨3, 5, 10, none⟩, ⟨4, 5, 10, none⟩, ⟨4, 5, 10, none⟩,
   ⟨5, 5, 10, none⟩, ⟨6, 5, 10, none⟩, ⟨7, 5, 10, none⟩, ⟨8, 5, 10, none⟩,
   ⟨9, 5, 10, none⟩, ⟨10, 5, 10, none⟩]

end DirectorDashboard

open OperationManager DirectorDashboard

/-- Claim C10: for every attendance collection — empty, missing the
`presence_type` field, or arbitrary — `calculate_staff_readiness` returns a
value in the closed interval [0, 100], because the count of records with
`presence_type = 'present'` never exceeds the total record count used as
the denominator. -/
theorem claimC10 (a : AttendanceFrame) :
    0 ≤ calculate_staff_readiness a ∧ calculate_staff_readiness a ≤ 100 := by
  simp only [calculate_staff_readiness]
  by_cases h1 : a.rows = []
  · simp [h1]
  · rw [if_neg h1]
    have hlen : 0 < a.rows.length := List.length_pos.mpr h1
    rw [if_pos hlen]
    have hple : (if a.hasPresenceType then
        a.rows.countP (fun r => decide (r.presence_type = "present")) else 0) ≤
        a.rows.length := by
      split_ifs
      · exact List.countP_le_length _
      · exact Nat.zero_le _
    have ht : (0 : ℚ) < (a.rows.length : ℚ) := by exact_mod_cast hlen
    set p : ℕ := if a.hasPresenceType then
      a.rows.countP (fun r => decide (r.presence_type = "present")) else 0 with hp
    constructor
    · positivity
    · have hdiv : (p : ℚ) / (a.rows.length : ℚ) ≤ 1 := by
        rw [div_le_one ht]
        exact_mod_cast hple
      calc (p : ℚ) / (a.rows.length : ℚ) * 100 ≤ 1 * 100 :=
            mul_le_mul_of_nonneg_right hdiv (by norm_num)
        _ = 100 := by norm_num

/-- Claim C3: for every derivation of the operations dashboard and every
input in which a required record collection is empty, an expected column
(`booking_status`, `presence_type`, `date`, `duration`) is missing on
otherwise-present records, or a count needed as a divisor is zero (which
for these derivations happens exactly on the empty collections), the
derivation returns its zero fallback and never propagates a failure. -/
theorem claimC3 :
    (∀ ds, calculate_otp [] ds = (0, 0))
    ∧ (∀ ts, calculate_otp ts [] = (0, 0))
    ∧ (∀ hb : Bool, calculate_trip_completion ⟨hb, []⟩ = (0, 0))
    ∧ (∀ rows, calculate_trip_completion ⟨false, rows⟩ = (0, 0))
    ∧ (∀ hp : Bool, calculate_staff_readiness ⟨hp, []⟩ = 0)
    ∧ (∀ rows, calculate_staff_readiness ⟨false, rows⟩ = 0)
    ∧ (∀ hd hu : Bool, calculate_mtbf ⟨hd, hu, []⟩ = 0)
    ∧ (∀ hu rows, calculate_mtbf ⟨false, hu, rows⟩ = 0)
    ∧ (∀ hs mf, calculate_fleet_downtime ⟨hs, []⟩ mf = 0)
    ∧ (∀ vf hd hu, calculate_fleet_downtime vf ⟨hd, hu, []⟩ = 0)
    ∧ (∀ vf hd rows, calculate_fleet_downtime vf ⟨hd, false, rows⟩ = 0)
    ∧ (∀ hs : Bool, calculate_operational_vehicles ⟨hs, []⟩ = 0) := by
  exact ⟨fun ds => by simp [calculate_otp], fun ts => by simp [calculate_otp],
    fun hb => by simp [calculate_trip_completion],
    fun rows => by simp [calculate_trip_completion],
    fun hp => by simp [calculate_staff_readiness],
    fun rows => by simp [calculate_staff_readiness],
    fun hd hu => by simp [calculate_mtbf],
    fun hu rows => by simp [calculate_mtbf],
    fun hs mf => by simp [calculate_fleet_downtime],
    fun vf hd hu => by simp [calculate_fleet_downtime],
    fun vf hd rows => by simp [calculate_fleet_downtime],
    fun hs => by simp [calculate_operational_vehicles]⟩

/-- Three-way accounting of booking statuses: the `completed`, `cancelled`
and other-status rows together exhaust the collection. -/
theorem countP_status_split (l : List BookingRow) :
    l.countP (fun r => decide (r.booking_status = "completed"))
      + l.countP (fun r => decide (r.booking_status = "cancelled"))
      + l.countP (fun r => decide (r.booking_status ≠ "completed" ∧ r.booking_status ≠ "cancelled"))
      = l.length := by
  induction l with
  | nil => rfl
  | cons r t ih =>
    simp only [List.countP_cons, List.length_cons]
    have haux : (if (decide (r.booking_status = "completed")) = true then 1 else 0)
        + (if (decide (r.booking_status = "cancelled")) = true then 1 else 0)
        + (if (decide (r.booking_status ≠ "completed" ∧ r.booking_status ≠ "cancelled")) = true
            then 1 else 0) = 1 := by
      by_cases h1 : r.booking_status = "completed"
      · have h2 : ¬ r.booking_status = "cancelled" := by rw [h1]; decide
        simp [h1, h2]
      · by_cases h2 : r.booking_status = "cancelled" <;> simp [h1, h2]
    omega

/-- A left merge anchored on a non-empty timings list is non-empty: the
first timing row contributes at least one joined row whatever the
durations are. -/
theorem leftMergeRows_cons_ne_nil (t : TripTimingRow) (ts : List TripTimingRow)
    (ds : List TripDurationRow) : leftMergeRows (t :: ts) ds ≠ [] := by
  unfold leftMergeRows
  cases hf : ds.filter (fun d => decide (d.trip_id = t.trip_id)) with
  | nil => simp
  | cons d ms => simp

/-- Every timing row appears in the left merge, paired with some optional
duration row. -/
theorem mem_leftMergeRows {t : TripTimingRow} :
    ∀ (ts : List TripTimingRow) (ds : List TripDurationRow), t ∈ ts →
      ∃ od, (t, od) ∈ leftMergeRows ts ds := by
  intro ts
  induction ts with
  | nil => intro ds ht; cases ht
  | cons t' ts' ih =>
    intro ds ht
    rcases List.mem_cons.mp ht with h | h
    · subst h
      cases hf : ds.filter (fun d => decide (d.trip_id = t.trip_id)) with
      | nil =>
        refine ⟨none, ?_⟩
        unfold leftMergeRows
        rw [hf]
        exact List.mem_append_left _ (List.mem_singleton.mpr rfl)
      | cons d ms =>
        refine ⟨some d, ?_⟩
        unfold leftMergeRows
        rw [hf]
        exact List.mem_append_left _ (List.mem_map_of_mem _ (List.mem_cons_self d ms))
    · obtain ⟨od, hod⟩ := ih ds h
      refine ⟨od, ?_⟩
      unfold leftMergeRows
      cases ds.filter (fun d => decide (d.trip_id = t'.trip_id)) with
      | nil => exact List.mem_append_right _ hod
      | cons d ms => exact List.mem_append_right _ hod

/-- With a non-empty timings list, the body of `calculate_otp` always
raises: the departure guard fails (`trip_time_timing` is not a merged
column, since suffixes attach only to overlapping columns) and the arrival
formula then reads that column and gets a `KeyError`. -/
theorem otpBody_error (t : TripTimingRow) (ts : List TripTimingRow)
    (ds : List TripDurationRow) :
    otpBody (t :: ts) ds = Except.error "trip_time_timing" := by
  obtain ⟨x, xs, hm⟩ := List.exists_cons_of_ne_nil (leftMergeRows_cons_ne_nil t ts ds)
  unfold otpBody
  rw [hm]
  rfl

/-- Claim C2 counterexample: with a non-empty TripTiming collection and an
empty TripDuration collection — which certainly "has no matching rows at
all" — `calculate_otp` returns before joining, so the timing row does not
appear in any joined row. -/
theorem claimC2_counterexample :
    ([⟨"T1", 240, 3600, 0⟩] : List TripTimingRow) ≠ []
    ∧ (⟨"T1", 240, 3600, 0⟩ : TripTimingRow) ∈ ([⟨"T1", 240, 3600, 0⟩] : List TripTimingRow)
    ∧ ¬ ∃ od, ((⟨"T1", 240, 3600, 0⟩ : TripTimingRow), od) ∈
        otpJoinedRows [⟨"T1", 240, 3600, 0⟩] ([] : List TripDurationRow) := by
  refine ⟨by simp, by simp, ?_⟩
  rintro ⟨od, hod⟩
  simp [otpJoinedRows] at hod

/-- Claim C2 (amended): for every non-empty TripTiming collection and
non-empty TripDuration collection, the join `calculate_otp` performs is a
left join anchored on TripTiming by `trip_id`: every timing row appears in
the joined result even if no duration record matches it — including when
no duration row matches any timing row.  (When either collection is empty
the derivation returns `(0, 0)` without joining.) -/
theorem claimC2_amended (ts : List TripTimingRow) (ds : List TripDurationRow)
    (hts : ts ≠ []) (hds : ds ≠ []) (t : TripTimingRow) (ht : t ∈ ts) :
    ∃ od, (t, od) ∈ otpJoinedRows ts ds := by
  unfold otpJoinedRows
  rw [if_neg (by simp [hts, hds])]
  exact mem_leftMergeRows ts ds ht

/-- Witness for the amended claim C2 at a concrete input whose duration
rows share no `trip_id` with the timing row. -/
theorem claimC2_amended_witness :
    ∃ od, ((⟨"T1", 240, 3600, 0⟩ : TripTimingRow), od) ∈
      otpJoinedRows [⟨"T1", 240, 3600, 0⟩] [⟨"T2", 60, 60, "on_time"⟩] :=
  claimC2_amended [⟨"T1", 240, 3600, 0⟩] [⟨"T2", 60, 60, "on_time"⟩]
    (by simp) (by simp) ⟨"T1", 240, 3600, 0⟩ (by simp)

/-- Claim C5: the OTP punctuality conditions and rate formulas.  On the
code this fails: `calculate_otp` returns `(0, 0)` on every input, because
the merged frame has no column `trip_time_timing` (pandas attaches the
`_timing` suffix only to columns present in both frames, and `trip_time`
exists only in `trip_timings`), so the departure guard takes its 0 branch
and the arrival formula raises a `KeyError` that is caught and mapped to
`(0, 0)`.  The intended rates, as the spec states them, evaluate to
`(100, 100)` on a single trip that departs within the 5-minute grace
(scheduled 08:00, start 08:04) and arrives within
`expected_duration + 10` minutes. -/
theorem claimC5_code_eval :
    (∀ (ts : List TripTimingRow) (ds : List TripDurationRow), calculate_otp ts ds = (0, 0))
    ∧ ¬ ("trip_time_timing" ∈ mergedCols)
    ∧ specOtp [⟨"T1", 240, 3600, 0⟩] [⟨"T1", 60, 60, "on_time"⟩] = (100, 100) := by
  refine ⟨?_, by decide, ?_⟩
  · intro ts ds
    unfold calculate_otp
    by_cases h : ts = [] ∨ ds = []
    · rw [if_pos h]
    · rw [if_neg h]
      push_neg at h
      obtain ⟨t, ts', rfl⟩ := List.exists_cons_of_ne_nil h.1
      rw [otpBody_error t ts' ds]
  · norm_num [specOtp, leftMergeRows, specDepartedOnTime, specArrivedOnTime,
      List.countP_cons]
theorem deltasHours_length : ∀ l : List MaintRow, (deltasHours l).length = l.length - 1
  | [] => rfl
  | [_] => rfl
  | a :: b :: rest => by
    simp only [deltasHours, List.length_cons]
    rw [deltasHours_length (b :: rest)]
    simp

/-- Claim C4: for every MaintenanceEvent collection, `calculate_mtbf`
returns 0 with 0 or 1 events; with at least 2 events it sorts the events by
date ascending (the sort is a sorted permutation of the input) and returns
the arithmetic mean of the consecutive date deltas in hours; events at
hours 0, 10, 30 give MTBF = mean(10, 20) = 15. -/
theorem claimC4 :
    (∀ hd hu : Bool, calculate_mtbf ⟨hd, hu, []⟩ = 0)
    ∧ (∀ (hd hu : Bool) (r : MaintRow), calculate_mtbf ⟨hd, hu, [r]⟩ = 0)
    ∧ (∀ (hu : Bool) (a b : MaintRow) (rest : List MaintRow),
        calculate_mtbf ⟨true, hu, a :: b :: rest⟩ =
          (deltasHours (List.insertionSort dateLe (a :: b :: rest))).sum
            / ((rest.length + 1 : ℕ) : ℚ))
    ∧ (∀ l : List MaintRow,
        List.Sorted dateLe (List.insertionSort dateLe l)
          ∧ List.Perm (List.insertionSort dateLe l) l)
    ∧ calculate_mtbf ⟨true, true, mtbfExample⟩ = 15 := by
  refine ⟨fun hd hu => by simp [calculate_mtbf],
    fun hd hu r => by simp [calculate_mtbf], ?_,
    fun l => ⟨List.sorted_insertionSort dateLe l, List.perm_insertionSort dateLe l⟩, ?_⟩
  · intro hu a b rest
    have hne : (a :: b :: rest : List MaintRow) ≠ [] := by simp
    have hlen2 : ¬ (a :: b :: rest : List MaintRow).length < 2 := by
      simp only [List.length_cons]
      omega
    have hlen1 : 1 < (a :: b :: rest : List MaintRow).length := by
      simp only [List.length_cons]
      omega
    have hl : (deltasHours (List.insertionSort dateLe (a :: b :: rest))).length
        = rest.length + 1 := by
      rw [deltasHours_length, List.length_insertionSort]
      simp
    simp only [calculate_mtbf, if_neg hne, if_neg hlen2, hl]
    norm_num [hlen1]
  · norm_num [calculate_mtbf, mtbfExample, deltasHours, dateLe,
      List.insertionSort, List.orderedInsert]
    all_goals decide

/-- Claim C7: for every vehicle collection and maintenance collection,
`calculate_fleet_downtime` equals the summed maintenance duration hours
over `vehicle count × 24 × 30`, times 100, and is 0 when the vehicle count
is 0; 10 vehicles with 720 total maintenance hours yield exactly 10. -/
theorem claimC7 :
    (∀ (hs : Bool) (vrows : List VehicleRow) (hd : Bool) (mrows : List MaintRow),
      calculate_fleet_downtime ⟨hs, vrows⟩ ⟨hd, true, mrows⟩ =
        if vrows.length = 0 then 0
        else ((mrows.map (fun r => r.duration)).sum
          / ((vrows.length : ℚ) * 24 * 30)) * 100)
    ∧ calculate_fleet_downtime ⟨true, tenVehicles⟩ ⟨true, true, [⟨1, 1, 0, 720⟩]⟩ = 10 := by
  constructor
  · intro hs vrows hd mrows
    by_cases hv : vrows = []
    · subst hv
      simp [calculate_fleet_downtime]
    · have hlen : 0 < vrows.length := List.length_pos.mpr hv
      rw [if_neg (by omega : ¬ vrows.length = 0)]
      have hpos : (0 : ℚ) < (vrows.length : ℚ) * 24 * 30 := by
        have : (0 : ℚ) < (vrows.length : ℚ) := by exact_mod_cast hlen
        positivity
      by_cases hm : mrows = []
      · subst hm
        simp [calculate_fleet_downtime, hv]
      · simp only [calculate_fleet_downtime, hv, hm, or_self, if_false, if_pos hpos]
        simp
  · norm_num [calculate_fleet_downtime, tenVehicles, List.range, List.range.loop]
    all_goals decide

/-- Claim C6: for every booking collection, `trip_completion_rate` and
`cancellation_rate` are the percentages of bookings with status exactly
`'completed'` and exactly `'cancelled'` over the total bookings (both 0
when there are no bookings); the completed, cancelled and other-status
bookings together account for 100% of bookings, and
`completion_rate + cancellation_rate ≤ 100` for all inputs. -/
theorem claimC6 (rows : List BookingRow) :
    (calculate_trip_completion ⟨true, rows⟩).1 =
      (if rows = [] then 0 else
        ((rows.countP (fun r => decide (r.booking_status = "completed")) : ℚ) /
          (rows.length : ℚ)) * 100)
    ∧ (calculate_trip_completion ⟨true, rows⟩).2 =
      (if rows = [] then 0 else
        ((rows.countP (fun r => decide (r.booking_status = "cancelled")) : ℚ) /
          (rows.length : ℚ)) * 100)
    ∧ rows.countP (fun r => decide (r.booking_status = "completed"))
        + rows.countP (fun r => decide (r.booking_status = "cancelled"))
        + rows.countP (fun r => decide (r.booking_status ≠ "completed" ∧ r.booking_status ≠ "cancelled"))
        = rows.length
    ∧ (calculate_trip_completion ⟨true, rows⟩).1
        + (calculate_trip_completion ⟨true, rows⟩).2 ≤ 100 := by
  by_cases h : rows = []
  · subst h
    refine ⟨by simp [calculate_trip_completion], by simp [calculate_trip_completion], rfl, ?_⟩
    simp [calculate_trip_completion]
  · have hlen : 0 < rows.length := List.length_pos.mpr h
    have ht : (0 : ℚ) < (rows.length : ℚ) := by exact_mod_cast hlen
    set c : ℕ := rows.countP (fun r => decide (r.booking_status = "completed")) with hc
    set k : ℕ := rows.countP (fun r => decide (r.booking_status = "cancelled")) with hk
    have h1 : (calculate_trip_completion ⟨true, rows⟩).1 = ((c : ℚ) / (rows.length : ℚ)) * 100 := by
      simp [calculate_trip_completion, if_neg h, if_pos hlen, hc]
    have h2 : (calculate_trip_completion ⟨true, rows⟩).2 = ((k : ℚ) / (rows.length : ℚ)) * 100 := by
      simp [calculate_trip_completion, if_neg h, if_pos hlen, hk]
    refine ⟨by rw [h1, if_neg h], by rw [h2, if_neg h], countP_status_split rows, ?_⟩
    have hck : c + k ≤ rows.length := by
      have := countP_status_split rows
      omega
    have hsum : (calculate_trip_completion ⟨true, rows⟩).1
        + (calculate_trip_completion ⟨true, rows⟩).2
        = (((c + k : ℕ) : ℚ) / (rows.length : ℚ)) * 100 := by
      rw [h1, h2]
      push_cast
      ring
    rw [hsum]
    have hdiv : ((c + k : ℕ) : ℚ) / (rows.length : ℚ) ≤ 1 := by
      rw [div_le_one ht]
      exact_mod_cast hck
    calc ((c + k : ℕ) : ℚ) / (rows.length : ℚ) * 100 ≤ 1 * 100 :=
          mul_le_mul_of_nonneg_right hdiv (by norm_num)
      _ = 100 := by norm_num

/-- Claim C1 evaluated on the code: because `get_rofa` sums `t.debit` over
the CROSS JOIN of transactions and vehicles, the sum is multiplied by the
vehicle count, and the returned triple is `(10000, 40000, 4)` — the rofa
component equals the total revenue, not the claimed
`sum(revenue) / distinct operational vehicles = 2500`. -/
theorem claimC1_code_eval :
    get_rofa 0 rofaTransactions rofaVehicles = (10000, 40000, 4)
    ∧ specRofa 0 rofaTransactions rofaVehicles = 2500
    ∧ (10000 : ℚ) ≠ 2500 := by
  refine ⟨?_, ?_, by norm_num⟩
  · norm_num [get_rofa, rofaTransactions, rofaVehicles, crossRows, round2, roundAway,
      List.dedup, Prod.ext_iff]
  · norm_num [specRofa, rofaTransactions, rofaVehicles, List.dedup]

/-- Claim C8 counterexample: the channel patterns are matched by the
case-SENSITIVE SQL `LIKE`, not case-insensitively as the claim states: a
booking labelled `"MOBILE"` matches the Mobile patterns case-insensitively
yet is counted in no Mobile bucket row. -/
theorem claimC8_counterexample :
    specMatchesCI "MOBILE" "mobile" = true
    ∧ inMobile (some "MOBILE") = false
    ∧ (bucketRow "Mobile" inMobile 0 [⟨1, 0, 10, some "MOBILE"⟩]).booking_count = 0 := by
  exact ⟨rfl, rfl, rfl⟩

/-- Claim C8 (amended): each booking is counted in every bucket whose
pattern its channel label matches as a case-SENSITIVE substring — possibly
several buckets, possibly none; `"mobile-app-ios"` is counted in the
Mobile bucket, `"web-app"` in both Web and Mobile, `"phone"` in none, and
a null channel label only in the Web bucket (besides the all-channels
total). -/
theorem claimC8_amended :
    inWeb none = true ∧ inPOS none = false ∧ inMobile none = false ∧ inB2B none = false
    ∧ inMobile (some "mobile-app-ios") = true
    ∧ inWeb (some "web-app") = true ∧ inMobile (some "web-app") = true
    ∧ inWeb (some "phone") = false ∧ inPOS (some "phone") = false
    ∧ inMobile (some "phone") = false ∧ inB2B (some "phone") = false
    ∧ get_booking_sources 0 [⟨1, 0, 5, none⟩] =
        [⟨"All Channels", 1, 5⟩, ⟨"Web", 1, 5⟩, ⟨"POS", 0, 0⟩, ⟨"Mobile", 0, 0⟩,
          ⟨"B2B", 0, 0⟩] := by
  refine ⟨rfl, rfl, rfl, rfl, rfl, rfl, rfl, rfl, rfl, rfl, rfl, ?_⟩
  norm_num [get_booking_sources, bucketRow, windowed, inWeb, inPOS, inMobile, inB2B,
    List.insertionSort, List.orderedInsert, revenueGe]

/-- Claim C9: for every booking collection, `get_customer_retention`
reports the number of distinct customers with a booking in the window, the
number of those with more than one booking, and the retention rate as the
percentage of the latter among the former (0 when there are no distinct
customers); 10 distinct customers of whom 4 have more than one booking
give a 40% rate. -/
theorem claimC9 :
    (∀ (cutoff : Int) (bs : List DBookingRow),
      (get_customer_retention cutoff bs).1 =
        ((windowed cutoff bs).map (fun b => b.passenger_id)).toFinset.card
      ∧ (get_customer_retention cutoff bs).2.1 =
        (((windowed cutoff bs).map (fun b => b.passenger_id)).toFinset.filter
          (fun p => 1 < (windowed cutoff bs).countP
            (fun b => decide (b.passenger_id = p)))).card
      ∧ (get_customer_retention cutoff bs).2.2 =
        (if (get_customer_retention cutoff bs).1 = 0 then 0
         else round2 ((((get_customer_retention cutoff bs).2.1 : ℚ) * 100)
           / ((get_customer_retention cutoff bs).1 : ℚ))))
    ∧ get_customer_retention 0 retentionExample = (10, 4, 40) := by
  constructor
  · intro cutoff bs
    refine ⟨by simp [get_customer_retention, List.card_toFinset], ?_, ?_⟩
    · simp only [get_customer_retention]
      rw [← List.toFinset_card_of_nodup ((List.nodup_dedup _).filter _)]
      congr 1
      ext x
      simp [List.mem_filter, List.mem_dedup]
    · simp only [get_customer_retention]
      rcases Nat.eq_zero_or_pos
          (((windowed cutoff bs).map (fun b => b.passenger_id)).dedup).length with h | h
      · simp [h]
      · rw [if_pos h, if_neg (by omega)]
  · have h : ((windowed 0 retentionExample).map (fun b => b.passenger_id)).dedup
        = [1, 2, 3, 4, 5, 6, 7, 8, 9, 10] := by decide
    have h3 : (([1, 2, 3, 4, 5, 6, 7, 8, 9, 10] : List Int)).filter
        (fun p => decide (1 < (windowed 0 retentionExample).countP
          (fun b => decide (b.passenger_id = p)))) = [1, 2, 3, 4] := by decide
    simp only [get_customer_retention, h, h3]
    norm_num [round2, roundAway]
